import Mathlib

set_option maxRecDepth 8000

/-!
Verification development for the PRRTE daemon-launch orchestration and DSS
typed-serialization substrate.

The definitions below are a shallow embedding of:
- `src/dss/dss_load_unload.c` (buffer load/unload/copy_payload and the
  tagged-value load/unload/xfer operations), and
- `src/mca/plm/tm/plm_tm_module.c` (the TM launch-daemons handler and its
  asynchronous poll step).

Modelling conventions:
- C heap regions are modelled as a `Region`: an allocation identity (`id`)
  paired with the list of initialized bytes of the region.  `malloc` is
  modelled by threading a fresh-allocation counter `alloc : Nat` through the
  operations; a freshly malloc'd region receives `id = alloc` and the counter
  advances, so distinctness of allocations is provable while an unchanged
  counter witnesses that no allocation took place.
- Nullable C pointers become `Option`; machine counts (`int32_t bytes_used`
  etc.), which are non-negative in every reachable buffer state, become `Nat`.
- Out-parameters become extra components of the returned record.
-/

/-- Return codes of the PRRTE error space, as distinct constants.  Only
identity/distinctness of the codes matters to the claims, not their numeric
values (which live in a header outside the provided sources). -/
inductive PrrteRC where
  | SUCCESS
  | ERROR
  | ERR_BAD_PARAM
  | ERR_BUFFER
  | ERR_OUT_OF_RESOURCE
  | ERR_NOT_SUPPORTED
  | ERR_TYPE_MISMATCH
  | ERR_NOT_FOUND
  | ERR_RESOURCE_BUSY
deriving DecidableEq

/-- A heap region: an allocation identity plus the initialized bytes it
holds.  Two regions are the same C allocation exactly when their `id`s
coincide. -/
structure Region where
  id : Nat
  bytes : List Nat
deriving DecidableEq

/-- The `prrte_buffer_t` state: owned backing region (`base_ptr`, `none` for
NULL), the unpack and pack cursors as offsets from `base_ptr`, the allocated
and used byte counts, and the declared buffer type. -/
structure prrte_buffer where
  base_ptr : Option Region
  unpack_off : Nat
  pack_off : Nat
  bytes_allocated : Nat
  bytes_used : Nat
  btype : Nat
deriving DecidableEq

/-- Modelled from the spec: the default buffer type installed by the
`prrte_buffer_t` constructor.  The constructor (OBJ class machinery in
`dss_open_close.c`) is not among the provided sources; the value is an
arbitrary fixed tag. -/
def prrte_default_buf_type : Nat := 0

/-- Modelled from the spec: `PRRTE_CONSTRUCT(buffer, prrte_buffer_t)` (the
buffer constructor is not among the provided sources) produces a fresh empty
buffer: no backing region, both cursors at the origin, zero counts, default
type.  The spec: the buffer "always returns to a valid empty state". -/
def freshBuffer : prrte_buffer :=
  { base_ptr := none, unpack_off := 0, pack_off := 0,
    bytes_allocated := 0, bytes_used := 0, btype := prrte_default_buf_type }

/-- Result of `prrte_dss_unload`: return code, the buffer after the call,
the `*payload` out-parameter (a region, or `none` for NULL / unwritten), the
`*bytes_used` out-parameter, and the allocation counter after the call. -/
structure UnloadResult where
  rc : PrrteRC
  buffer : Option prrte_buffer
  payload : Option Region
  bytes_used : Nat
  alloc : Nat
deriving DecidableEq

/-- Shallow embedding of `prrte_dss_unload` (dss_load_unload.c:33-80).
`payload_slot` models whether the `payload` out-pointer is non-NULL.  The
zero-copy branch hands the backing region over by reference (same `Region`,
allocation counter untouched); the partial branch mallocs a fresh region
(`id = alloc`) and copies the unread tail into it.  Both those branches end
in `PRRTE_DESTRUCT`/`PRRTE_CONSTRUCT`, i.e. `freshBuffer`; the empty-buffer
branch returns without resetting. -/
def prrte_dss_unload (buffer : Option prrte_buffer) (payload_slot : Bool)
    (alloc : Nat) : UnloadResult :=
  match buffer with
  | none => ⟨.ERR_BAD_PARAM, none, none, 0, alloc⟩
  | some b =>
    if ¬ payload_slot then ⟨.ERR_BAD_PARAM, some b, none, 0, alloc⟩
    else
      match b.base_ptr with
      | none => ⟨.SUCCESS, some b, none, 0, alloc⟩
      | some R =>
        if b.bytes_used = 0 then ⟨.SUCCESS, some b, none, 0, alloc⟩
        else if b.unpack_off = 0 then
          ⟨.SUCCESS, some freshBuffer, some R, b.bytes_used, alloc⟩
        else
          let n := b.bytes_used - b.unpack_off
          if n = 0 then ⟨.SUCCESS, some freshBuffer, none, 0, alloc⟩
          else
            ⟨.SUCCESS, some freshBuffer,
             some ⟨alloc, (R.bytes.drop b.unpack_off).take n⟩, n, alloc + 1⟩

/-- Result of `prrte_dss_load`: return code and the buffer after the call. -/
structure LoadResult where
  rc : PrrteRC
  buffer : Option prrte_buffer
deriving DecidableEq

/-- Shallow embedding of `prrte_dss_load` (dss_load_unload.c:83-113).  The
buffer is always destructed and reconstructed first; a non-NULL payload is
then adopted by reference (no copy): the region becomes the backing store,
the pack cursor points past `bytes_used`, the unpack cursor at the start. -/
def prrte_dss_load (buffer : Option prrte_buffer) (payload : Option Region)
    (bytes_used : Nat) : LoadResult :=
  match buffer with
  | none => ⟨.ERR_BAD_PARAM, none⟩
  | some _ =>
    match payload with
    | none => ⟨.SUCCESS, some freshBuffer⟩
    | some R =>
      ⟨.SUCCESS, some { base_ptr := some R, unpack_off := 0,
                        pack_off := bytes_used, bytes_allocated := bytes_used,
                        bytes_used := bytes_used,
                        btype := prrte_default_buf_type }⟩

/-- C1: loading a payload region P of length n > 0 and unloading before
anything has been unpacked succeeds and returns exactly P and n; the region
is handed over by reference (same allocation, and the allocation counter is
unchanged, so no fresh copy was made), and the buffer is reset to the fresh
empty state. -/
theorem c1_zero_copy_unload (b : prrte_buffer) (P : Region) (n alloc : Nat)
    (hn : 0 < n) (hlen : P.bytes.length = n) :
    prrte_dss_load (some b) (some P) n =
      ⟨.SUCCESS, some { base_ptr := some P, unpack_off := 0, pack_off := n,
                        bytes_allocated := n, bytes_used := n,
                        btype := prrte_default_buf_type }⟩ ∧
    prrte_dss_unload (prrte_dss_load (some b) (some P) n).buffer true alloc =
      ⟨.SUCCESS, some freshBuffer, some P, n, alloc⟩ := by
  constructor
  · rfl
  · simp only [prrte_dss_load, prrte_dss_unload]
    rw [if_neg (by simp), if_neg (Nat.pos_iff_ne_zero.mp hn)]
    simp

/-- C1 witness: the theorem applied at a concrete three-byte payload. -/
theorem c1_zero_copy_unload_witness :
    prrte_dss_load (some freshBuffer) (some ⟨7, [1, 2, 3]⟩) 3 =
      ⟨.SUCCESS, some { base_ptr := some ⟨7, [1, 2, 3]⟩, unpack_off := 0,
                        pack_off := 3, bytes_allocated := 3, bytes_used := 3,
                        btype := prrte_default_buf_type }⟩ ∧
    prrte_dss_unload
        (prrte_dss_load (some freshBuffer) (some ⟨7, [1, 2, 3]⟩) 3).buffer
        true 42 =
      ⟨.SUCCESS, some freshBuffer, some ⟨7, [1, 2, 3]⟩, 3, 42⟩ :=
  c1_zero_copy_unload freshBuffer ⟨7, [1, 2, 3]⟩ 3 42 (by decide) (by decide)

/-- C5: unloading a buffer whose unpack cursor sits strictly past the base
returns the `bytes_used - unpack_off` unread tail bytes in a freshly
malloc'd region distinct from the original backing region (NULL payload if
the tail is empty), succeeds, and resets the buffer to the fresh empty
state. -/
theorem c5_tail_unload (b : prrte_buffer) (R : Region) (alloc : Nat)
    (hb : b.base_ptr = some R)
    (hk : 0 < b.unpack_off) (hku : b.unpack_off ≤ b.bytes_used)
    (hwf : R.bytes.length = b.bytes_used) (hid : R.id < alloc) :
    (prrte_dss_unload (some b) true alloc).rc = .SUCCESS ∧
    (prrte_dss_unload (some b) true alloc).buffer = some freshBuffer ∧
    (prrte_dss_unload (some b) true alloc).bytes_used
      = b.bytes_used - b.unpack_off ∧
    (b.bytes_used - b.unpack_off = 0 →
      (prrte_dss_unload (some b) true alloc).payload = none) ∧
    (b.bytes_used - b.unpack_off ≠ 0 →
      ∃ Q, (prrte_dss_unload (some b) true alloc).payload = some Q ∧
        Q.bytes = R.bytes.drop b.unpack_off ∧ Q.id = alloc ∧ Q.id ≠ R.id ∧
        (prrte_dss_unload (some b) true alloc).alloc = alloc + 1) := by
  obtain ⟨base, u, p, ba, bu, t⟩ := b
  simp only at hb hk hku hwf ⊢
  subst hb
  have hu : bu ≠ 0 := by omega
  have hk0 : u ≠ 0 := by omega
  have key : prrte_dss_unload (some ⟨some R, u, p, ba, bu, t⟩) true alloc =
      if bu - u = 0 then ⟨.SUCCESS, some freshBuffer, none, 0, alloc⟩
      else ⟨.SUCCESS, some freshBuffer,
            some ⟨alloc, (R.bytes.drop u).take (bu - u)⟩, bu - u, alloc + 1⟩ := by
    simp only [prrte_dss_unload]
    rw [if_neg (by simp), if_neg hu, if_neg hk0]
  rw [key]
  by_cases h0 : bu - u = 0
  · simp [h0]
  · rw [if_neg h0]
    refine ⟨rfl, rfl, rfl, fun h => absurd h h0,
            fun _ => ⟨_, rfl, ?_, rfl, (Nat.ne_of_lt hid).symm, rfl⟩⟩
    have hlen2 : (R.bytes.drop u).length = bu - u := by simp [hwf]
    rw [← hlen2, List.take_length]

/-- C5 witness: the theorem applied at a buffer holding five bytes with two
already unpacked. -/
theorem c5_tail_unload_witness :
    (prrte_dss_unload
        (some { base_ptr := some ⟨3, [10, 11, 12, 13, 14]⟩, unpack_off := 2,
                pack_off := 5, bytes_allocated := 5, bytes_used := 5,
                btype := 0 }) true 9).rc = .SUCCESS ∧
    (prrte_dss_unload
        (some { base_ptr := some ⟨3, [10, 11, 12, 13, 14]⟩, unpack_off := 2,
                pack_off := 5, bytes_allocated := 5, bytes_used := 5,
                btype := 0 }) true 9).buffer = some freshBuffer ∧
    (prrte_dss_unload
        (some { base_ptr := some ⟨3, [10, 11, 12, 13, 14]⟩, unpack_off := 2,
                pack_off := 5, bytes_allocated := 5, bytes_used := 5,
                btype := 0 }) true 9).bytes_used = 5 - 2 ∧
    (5 - 2 = 0 →
      (prrte_dss_unload
        (some { base_ptr := some ⟨3, [10, 11, 12, 13, 14]⟩, unpack_off := 2,
                pack_off := 5, bytes_allocated := 5, bytes_used := 5,
                btype := 0 }) true 9).payload = none) ∧
    (5 - 2 ≠ 0 →
      ∃ Q, (prrte_dss_unload
        (some { base_ptr := some ⟨3, [10, 11, 12, 13, 14]⟩, unpack_off := 2,
                pack_off := 5, bytes_allocated := 5, bytes_used := 5,
                btype := 0 }) true 9).payload = some Q ∧
        Q.bytes = [10, 11, 12, 13, 14].drop 2 ∧ Q.id = 9 ∧ Q.id ≠ 3 ∧
        (prrte_dss_unload
        (some { base_ptr := some ⟨3, [10, 11, 12, 13, 14]⟩, unpack_off := 2,
                pack_off := 5, bytes_allocated := 5, bytes_used := 5,
                btype := 0 }) true 9).alloc = 9 + 1) :=
  c5_tail_unload _ ⟨3, [10, 11, 12, 13, 14]⟩ 9 rfl (by decide) (by decide)
    (by decide) (by decide)

/-- Bytes of a buffer's backing region (empty list for a NULL `base_ptr`). -/
def bufBytes (b : prrte_buffer) : List Nat :=
  match b.base_ptr with
  | none => []
  | some R => R.bytes

/-- The unread tail of a source buffer: the `bytes_used - unpack_off` bytes
starting at the unpack cursor — exactly what
`memcpy(dst_ptr, src->unpack_ptr, bytes_left)` reads.  The consumed
portion before the unpack cursor is dropped, never read. -/
def srcTail (s : prrte_buffer) : List Nat :=
  ((bufBytes s).drop s.unpack_off).take (s.bytes_used - s.unpack_off)

/-- Modelled from the spec: `prrte_dss_buffer_extend` (declared in
`dss_internal.h`, defined outside the provided sources) grows the
destination's backing region so that `need` more bytes fit past the packed
extent and returns the write position (the pack cursor); it reallocates in
place (identity preserved) or allocates a first region for an empty buffer,
and yields NULL on allocation failure (modelled by the caller-supplied
`extend_ok` flag in `prrte_dss_copy_payload`). -/
def prrte_dss_buffer_extend (b : prrte_buffer) (need : Nat) (alloc : Nat) :
    prrte_buffer × Nat :=
  match b.base_ptr with
  | some _ =>
    ({ b with bytes_allocated := max b.bytes_allocated (b.bytes_used + need) },
     alloc)
  | none =>
    ({ b with base_ptr := some ⟨alloc, []⟩,
              bytes_allocated := b.bytes_used + need }, alloc + 1)

/-- Result of `prrte_dss_copy_payload`: return code, destination and source
buffers after the call, and the allocation counter. -/
structure CopyResult where
  rc : PrrteRC
  dest : Option prrte_buffer
  src : Option prrte_buffer
  alloc : Nat
deriving DecidableEq

/-- Shallow embedding of `prrte_dss_copy_payload` (dss_load_unload.c:120-171).
NULL dest or src yields BadParam; a populated dest whose type differs from
src's yields `PRRTE_ERR_BUFFER` with no mutation; otherwise dest adopts
src's type, and the unread tail of src (if any) is appended at dest's pack
cursor after growing the backing region, advancing `bytes_used` and the pack
cursor.  `extend_ok` models the success of the extend allocation.  The source
buffer is returned unchanged: the C code never writes through `src`. -/
def prrte_dss_copy_payload (dest src : Option prrte_buffer) (extend_ok : Bool)
    (alloc : Nat) : CopyResult :=
  match dest, src with
  | none, s => ⟨.ERR_BAD_PARAM, none, s, alloc⟩
  | some d, none => ⟨.ERR_BAD_PARAM, some d, none, alloc⟩
  | some d, some s =>
    if d.bytes_used ≠ 0 ∧ d.btype ≠ s.btype then
      ⟨.ERR_BUFFER, some d, some s, alloc⟩
    else if s.bytes_used - s.unpack_off = 0 then
      ⟨.SUCCESS, some { d with btype := s.btype }, some s, alloc⟩
    else if ¬ extend_ok then
      ⟨.ERR_OUT_OF_RESOURCE, some { d with btype := s.btype }, some s, alloc⟩
    else
      match prrte_dss_buffer_extend { d with btype := s.btype }
              (s.bytes_used - s.unpack_off) alloc with
      | (e, a1) =>
        match e.base_ptr with
        | none => ⟨.ERR_OUT_OF_RESOURCE, some { d with btype := s.btype },
                   some s, alloc⟩
        | some R =>
          ⟨.SUCCESS,
           some { e with
                  base_ptr := some ⟨R.id, R.bytes.take e.pack_off ++ srcTail s⟩,
                  bytes_used := e.bytes_used + (s.bytes_used - s.unpack_off),
                  pack_off := e.pack_off + (s.bytes_used - s.unpack_off) },
           some s, a1⟩

/-- C6: `copy_payload` fails with BadParam when either buffer is NULL; and
when dest already holds data and its declared type differs from src's, it
fails with the type-mismatch error `PRRTE_ERR_BUFFER`, leaving both buffers
and the allocator untouched. -/
theorem c6_copy_payload_guards (d s : prrte_buffer) (extend_ok : Bool)
    (alloc : Nat) :
    (prrte_dss_copy_payload none (some s) extend_ok alloc).rc
      = .ERR_BAD_PARAM ∧
    (prrte_dss_copy_payload (some d) none extend_ok alloc).rc
      = .ERR_BAD_PARAM ∧
    (prrte_dss_copy_payload none none extend_ok alloc).rc = .ERR_BAD_PARAM ∧
    (d.bytes_used ≠ 0 → d.btype ≠ s.btype →
      prrte_dss_copy_payload (some d) (some s) extend_ok alloc
        = ⟨.ERR_BUFFER, some d, some s, alloc⟩) := by
  refine ⟨rfl, rfl, rfl, fun h1 h2 => ?_⟩
  simp only [prrte_dss_copy_payload]
  rw [if_pos ⟨h1, h2⟩]

/-- C6 witness: the theorem applied at a populated one-byte dest of type 0
and a src of type 1. -/
theorem c6_copy_payload_guards_witness :
    (prrte_dss_copy_payload none
        (some { base_ptr := none, unpack_off := 0, pack_off := 0,
                bytes_allocated := 0, bytes_used := 0, btype := 1 })
        true 5).rc = .ERR_BAD_PARAM ∧
    (prrte_dss_copy_payload
        (some { base_ptr := some ⟨2, [8]⟩, unpack_off := 0, pack_off := 1,
                bytes_allocated := 1, bytes_used := 1, btype := 0 })
        none true 5).rc = .ERR_BAD_PARAM ∧
    (prrte_dss_copy_payload none none true 5).rc = .ERR_BAD_PARAM ∧
    ((1 : Nat) ≠ 0 → (0 : Nat) ≠ 1 →
      prrte_dss_copy_payload
        (some { base_ptr := some ⟨2, [8]⟩, unpack_off := 0, pack_off := 1,
                bytes_allocated := 1, bytes_used := 1, btype := 0 })
        (some { base_ptr := none, unpack_off := 0, pack_off := 0,
                bytes_allocated := 0, bytes_used := 0, btype := 1 })
        true 5
        = ⟨.ERR_BUFFER,
           some { base_ptr := some ⟨2, [8]⟩, unpack_off := 0, pack_off := 1,
                  bytes_allocated := 1, bytes_used := 1, btype := 0 },
           some { base_ptr := none, unpack_off := 0, pack_off := 0,
                  bytes_allocated := 0, bytes_used := 0, btype := 1 },
           5⟩) :=
  c6_copy_payload_guards
    { base_ptr := some ⟨2, [8]⟩, unpack_off := 0, pack_off := 1,
      bytes_allocated := 1, bytes_used := 1, btype := 0 }
    { base_ptr := none, unpack_off := 0, pack_off := 0,
      bytes_allocated := 0, bytes_used := 0, btype := 1 }
    true 5

/-- Helper: on the non-error path (empty dest or matching types, extend
succeeding), `copy_payload` succeeds, leaves src untouched, and appends
exactly the unread tail of src at dest's packed extent, advancing the used
count and pack cursor by `bytes_left`; when src is fully consumed the only
change to dest is the type adoption. -/
theorem copy_payload_ok (d s : prrte_buffer) (alloc : Nat)
    (compat : d.bytes_used = 0 ∨ d.btype = s.btype)
    (wfd : (bufBytes d).length = d.pack_off) :
    ∃ d1 a1,
      prrte_dss_copy_payload (some d) (some s) true alloc
        = ⟨.SUCCESS, some d1, some s, a1⟩ ∧
      bufBytes d1 = bufBytes d ++ srcTail s ∧
      d1.btype = s.btype ∧
      d1.unpack_off = d.unpack_off ∧
      d1.bytes_used = d.bytes_used + (s.bytes_used - s.unpack_off) ∧
      d1.pack_off = d.pack_off + (s.bytes_used - s.unpack_off) ∧
      (s.bytes_used - s.unpack_off = 0 → d1 = { d with btype := s.btype }) := by
  have hng : ¬ (d.bytes_used ≠ 0 ∧ d.btype ≠ s.btype) := by
    rcases compat with h | h
    · exact fun hc => hc.1 h
    · exact fun hc => hc.2 h
  by_cases hL : s.bytes_used - s.unpack_off = 0
  · have heq : prrte_dss_copy_payload (some d) (some s) true alloc
        = ⟨.SUCCESS, some { d with btype := s.btype }, some s, alloc⟩ := by
      simp only [prrte_dss_copy_payload]
      rw [if_neg hng, if_pos hL]
    have hst : srcTail s = [] := by simp [srcTail, hL]
    exact ⟨{ d with btype := s.btype }, alloc, heq, by simp [hst, bufBytes],
           rfl, rfl, by simp [hL], by simp [hL], fun _ => rfl⟩
  · obtain ⟨db, du, dp, dba, dbu, dt⟩ := d
    cases db with
    | none =>
      simp only [bufBytes] at wfd
      have hp : dp = 0 := by simpa using wfd.symm
      subst hp
      have heq : prrte_dss_copy_payload
            (some ⟨none, du, 0, dba, dbu, dt⟩) (some s) true alloc
          = ⟨.SUCCESS,
             some { base_ptr :=
                      some ⟨alloc, List.take 0 ([] : List Nat) ++ srcTail s⟩,
                    unpack_off := du,
                    pack_off := 0 + (s.bytes_used - s.unpack_off),
                    bytes_allocated := dbu + (s.bytes_used - s.unpack_off),
                    bytes_used := dbu + (s.bytes_used - s.unpack_off),
                    btype := s.btype },
             some s, alloc + 1⟩ := by
        simp only [prrte_dss_copy_payload, prrte_dss_buffer_extend]
        rw [if_neg hng, if_neg hL, if_neg (by simp)]
      exact ⟨_, alloc + 1, heq, by simp [bufBytes], rfl, rfl, rfl, rfl,
             fun h => absurd h hL⟩
    | some R =>
      simp only [bufBytes] at wfd
      have ht : R.bytes.take dp = R.bytes :=
        List.take_of_length_le (le_of_eq wfd)
      have heq : prrte_dss_copy_payload
            (some ⟨some R, du, dp, dba, dbu, dt⟩) (some s) true alloc
          = ⟨.SUCCESS,
             some { base_ptr := some ⟨R.id, R.bytes.take dp ++ srcTail s⟩,
                    unpack_off := du,
                    pack_off := dp + (s.bytes_used - s.unpack_off),
                    bytes_allocated :=
                      max dba (dbu + (s.bytes_used - s.unpack_off)),
                    bytes_used := dbu + (s.bytes_used - s.unpack_off),
                    btype := s.btype },
             some s, alloc⟩ := by
        simp only [prrte_dss_copy_payload, prrte_dss_buffer_extend]
        rw [if_neg hng, if_neg hL, if_neg (by simp)]
      refine ⟨_, alloc, heq, ?_, rfl, rfl, rfl, rfl, fun h => absurd h hL⟩
      simp only [bufBytes, ht]

/-- Length of the unread tail under the source well-formedness invariant
(backing bytes cover exactly the packed extent, unpack cursor within it). -/
theorem srcTail_length (s : prrte_buffer)
    (wfs : (bufBytes s).length = s.bytes_used) (hus : s.unpack_off ≤ s.bytes_used) :
    (srcTail s).length = s.bytes_used - s.unpack_off := by
  simp [srcTail, wfs]

/-- C7 counterexample: with an empty dest of type 0 and a fully-consumed src
of type 1, `copy_payload` succeeds but is not a no-op — dest's declared type
changes to 1. -/
theorem c7_counterexample :
    (prrte_dss_copy_payload
        (some { base_ptr := none, unpack_off := 0, pack_off := 0,
                bytes_allocated := 0, bytes_used := 0, btype := 0 })
        (some { base_ptr := some ⟨1, [9]⟩, unpack_off := 1, pack_off := 1,
                bytes_allocated := 1, bytes_used := 1, btype := 1 })
        true 5).rc = .SUCCESS ∧
    (prrte_dss_copy_payload
        (some { base_ptr := none, unpack_off := 0, pack_off := 0,
                bytes_allocated := 0, bytes_used := 0, btype := 0 })
        (some { base_ptr := some ⟨1, [9]⟩, unpack_off := 1, pack_off := 1,
                bytes_allocated := 1, bytes_used := 1, btype := 1 })
        true 5).dest ≠
      some { base_ptr := none, unpack_off := 0, pack_off := 0,
             bytes_allocated := 0, bytes_used := 0, btype := 0 } := by
  decide

/-- C7 (amended): `copy_payload` copies only the unread tail of src, never
its consumed portion, appending it to dest's packed bytes; src is returned
unchanged (the code never writes through it); a fully-consumed src leaves
dest unchanged apart from adopting src's declared type (a true no-op
whenever the types already match); and two consecutive calls without
advancing src's unpack cursor append the same tail twice — not idempotent. -/
theorem c7_tail_append (d s : prrte_buffer) (alloc : Nat)
    (compat : d.bytes_used = 0 ∨ d.btype = s.btype)
    (wfd : (bufBytes d).length = d.pack_off)
    (wfs : (bufBytes s).length = s.bytes_used)
    (hus : s.unpack_off ≤ s.bytes_used) :
    ∃ d1 a1,
      prrte_dss_copy_payload (some d) (some s) true alloc
        = ⟨.SUCCESS, some d1, some s, a1⟩ ∧
      bufBytes d1 = bufBytes d ++ srcTail s ∧
      (s.bytes_used - s.unpack_off = 0 → d1 = { d with btype := s.btype }) ∧
      ∃ d2 a2,
        prrte_dss_copy_payload (some d1) (some s) true a1
          = ⟨.SUCCESS, some d2, some s, a2⟩ ∧
        bufBytes d2 = (bufBytes d ++ srcTail s) ++ srcTail s ∧
        (srcTail s ≠ [] → d2 ≠ d1) := by
  obtain ⟨d1, a1, heq1, hb1, hty1, hun1, hbu1, hp1, hz1⟩ :=
    copy_payload_ok d s alloc compat wfd
  have wfd1 : (bufBytes d1).length = d1.pack_off := by
    rw [hb1, hp1, List.length_append, wfd, srcTail_length s wfs hus]
  obtain ⟨d2, a2, heq2, hb2, hty2, hun2, hbu2, hp2, hz2⟩ :=
    copy_payload_ok d1 s a1 (Or.inr hty1) wfd1
  refine ⟨d1, a1, heq1, hb1, hz1, d2, a2, heq2, by rw [hb2, hb1], fun hne => ?_⟩
  have hL : s.bytes_used - s.unpack_off ≠ 0 := by
    intro h0
    exact hne (by simp [srcTail, h0])
  intro hdd
  rw [hdd] at hbu2
  omega

/-- C7 witness: the theorem applied at an empty dest and a src holding three
bytes with one already consumed. -/
theorem c7_tail_append_witness :
    ∃ d1 a1,
      prrte_dss_copy_payload (some freshBuffer)
          (some { base_ptr := some ⟨1, [4, 5, 6]⟩, unpack_off := 1,
                  pack_off := 3, bytes_allocated := 3, bytes_used := 3,
                  btype := 0 }) true 8
        = ⟨.SUCCESS, some d1,
           some { base_ptr := some ⟨1, [4, 5, 6]⟩, unpack_off := 1,
                  pack_off := 3, bytes_allocated := 3, bytes_used := 3,
                  btype := 0 }, a1⟩ ∧
      bufBytes d1 = bufBytes freshBuffer ++
        srcTail { base_ptr := some ⟨1, [4, 5, 6]⟩, unpack_off := 1,
                  pack_off := 3, bytes_allocated := 3, bytes_used := 3,
                  btype := 0 } ∧
      ((3 : Nat) - 1 = 0 → d1 = { freshBuffer with btype := 0 }) ∧
      ∃ d2 a2,
        prrte_dss_copy_payload (some d1)
            (some { base_ptr := some ⟨1, [4, 5, 6]⟩, unpack_off := 1,
                    pack_off := 3, bytes_allocated := 3, bytes_used := 3,
                    btype := 0 }) true a1
          = ⟨.SUCCESS, some d2,
             some { base_ptr := some ⟨1, [4, 5, 6]⟩, unpack_off := 1,
                    pack_off := 3, bytes_allocated := 3, bytes_used := 3,
                    btype := 0 }, a2⟩ ∧
        bufBytes d2 = (bufBytes freshBuffer ++
          srcTail { base_ptr := some ⟨1, [4, 5, 6]⟩, unpack_off := 1,
                    pack_off := 3, bytes_allocated := 3, bytes_used := 3,
                    btype := 0 }) ++
          srcTail { base_ptr := some ⟨1, [4, 5, 6]⟩, unpack_off := 1,
                    pack_off := 3, bytes_allocated := 3, bytes_used := 3,
                    btype := 0 } ∧
        (srcTail { base_ptr := some ⟨1, [4, 5, 6]⟩, unpack_off := 1,
                   pack_off := 3, bytes_allocated := 3, bytes_used := 3,
                   btype := 0 } ≠ [] → d2 ≠ d1) :=
  c7_tail_append freshBuffer
    { base_ptr := some ⟨1, [4, 5, 6]⟩, unpack_off := 1, pack_off := 3,
      bytes_allocated := 3, bytes_used := 3, btype := 0 } 8
    (Or.inl rfl) (by decide) (by decide) (by decide)

/-- The `prrte_data_type_t` tags appearing in dss_load_unload.c, one
constructor per named constant plus `OTHER n` for every remaining tag value.
The named constants are distinct; their numeric values are irrelevant to the
switch-based code. -/
inductive prrte_data_type where
  | BOOL | BYTE | STRING | SIZE | PID
  | INT | INT8 | INT16 | INT32 | INT64
  | UINT | UINT8 | UINT16 | UINT32 | UINT64
  | BYTE_OBJECT | FLOAT | TIMEVAL | PTR | VPID
  | OTHER (n : Nat)
deriving DecidableEq

/-- A `prrte_byte_object_t`: a nullable bytes pointer and a size count. -/
structure prrte_byte_object where
  bo_bytes : Option (List Nat)
  bo_size : Nat
deriving DecidableEq

/-- A `struct timeval`: seconds and microseconds. -/
structure prrte_timeval where
  tv_sec : Int
  tv_usec : Int
deriving DecidableEq

/-- The `data` union of `prrte_value_t`, modelled as a record with one field
per union member.  The claims only ever read the member that matches the
stored tag, so cross-member aliasing of the C union is not needed; `memset`
to zero is modelled by `zeroData` below.  Strings are the character lists up
to the NUL terminator; `fval` is the float's bit pattern (moved only by
assignment/memcpy, never arithmetic); `ptr` is the pointer's address value
(0 for NULL). -/
structure prrte_data_union where
  flag : Bool
  byte : Nat
  string : Option (List Nat)
  size : Nat
  pid : Int
  integer : Int
  int8 : Int
  int16 : Int
  int32 : Int
  int64 : Int
  uint : Nat
  uint8 : Nat
  uint16 : Nat
  uint32 : Nat
  uint64 : Nat
  bo : prrte_byte_object
  fval : Nat
  tv : prrte_timeval
  ptr : Nat
  vpid : Nat
deriving DecidableEq

/-- The all-zero union state produced by `memset(&kv->data, 0, ...)`. -/
def zeroData : prrte_data_union :=
  { flag := false, byte := 0, string := none, size := 0, pid := 0,
    integer := 0, int8 := 0, int16 := 0, int32 := 0, int64 := 0,
    uint := 0, uint8 := 0, uint16 := 0, uint32 := 0, uint64 := 0,
    bo := ⟨none, 0⟩, fval := 0, tv := ⟨0, 0⟩, ptr := 0, vpid := 0 }

/-- A `prrte_value_t`: optional key, type tag, and the data union. -/
structure prrte_value where
  key : Option (List Nat)
  vtype : prrte_data_type
  data : prrte_data_union
deriving DecidableEq

/-- The datum behind the `void *data` argument of `prrte_value_load` /
written through `void **data` by `prrte_value_unload`, i.e. the value the
caller's pointer refers to, interpreted at the kind the call names.  For the
PTR kind the datum is the pointer itself (a nonzero address: the NULL
pointer is `none` at the `Option Datum` level). -/
inductive Datum where
  | dBool (b : Bool)
  | dByte (n : Nat)
  | dString (s : List Nat)
  | dSize (n : Nat)
  | dPid (n : Int)
  | dInt (n : Int)
  | dInt8 (n : Int)
  | dInt16 (n : Int)
  | dInt32 (n : Int)
  | dInt64 (n : Int)
  | dUInt (n : Nat)
  | dUInt8 (n : Nat)
  | dUInt16 (n : Nat)
  | dUInt32 (n : Nat)
  | dUInt64 (n : Nat)
  | dByteObject (bo : prrte_byte_object)
  | dFloat (bits : Nat)
  | dTimeval (tv : prrte_timeval)
  | dPtr (addr : Nat)
  | dVpid (n : Nat)
deriving DecidableEq

/-- Reading `*(bool*)data`: the datum's bool content.  A datum of any other
variant corresponds to C reinterpreting unrelated bytes; the default is an
unspecified placeholder no theorem relies on — likewise for the other
readers below. -/
def Datum.asBool : Datum → Bool
  | .dBool b => b
  | _ => false

/-- Reading `*(uint8_t*)data` for the BYTE kind. -/
def Datum.asByte : Datum → Nat
  | .dByte n => n
  | _ => 0

/-- Reading the C string at `data` (what `strdup` copies). -/
def Datum.asCString : Datum → List Nat
  | .dString s => s
  | _ => []

/-- Reading `*(size_t*)data`. -/
def Datum.asSize : Datum → Nat
  | .dSize n => n
  | _ => 0

/-- Reading `*(pid_t*)data`. -/
def Datum.asPid : Datum → Int
  | .dPid n => n
  | _ => 0

/-- Reading `*(int*)data`. -/
def Datum.asInt : Datum → Int
  | .dInt n => n
  | _ => 0

/-- Reading `*(int8_t*)data`. -/
def Datum.asInt8 : Datum → Int
  | .dInt8 n => n
  | _ => 0

/-- Reading `*(int16_t*)data`. -/
def Datum.asInt16 : Datum → Int
  | .dInt16 n => n
  | _ => 0

/-- Reading `*(int32_t*)data`. -/
def Datum.asInt32 : Datum → Int
  | .dInt32 n => n
  | _ => 0

/-- Reading `*(int64_t*)data`. -/
def Datum.asInt64 : Datum → Int
  | .dInt64 n => n
  | _ => 0

/-- Reading `*(unsigned int*)data`. -/
def Datum.asUInt : Datum → Nat
  | .dUInt n => n
  | _ => 0

/-- Reading `*(uint8_t*)data` for the UINT8 kind. -/
def Datum.asUInt8 : Datum → Nat
  | .dUInt8 n => n
  | _ => 0

/-- Reading `*(uint16_t*)data`. -/
def Datum.asUInt16 : Datum → Nat
  | .dUInt16 n => n
  | _ => 0

/-- Reading `*(uint32_t*)data`. -/
def Datum.asUInt32 : Datum → Nat
  | .dUInt32 n => n
  | _ => 0

/-- Reading `*(uint64_t*)data`. -/
def Datum.asUInt64 : Datum → Nat
  | .dUInt64 n => n
  | _ => 0

/-- Reading `*(prrte_byte_object_t*)data`. -/
def Datum.asBO : Datum → prrte_byte_object
  | .dByteObject bo => bo
  | _ => ⟨none, 0⟩

/-- Reading `*(float*)data` as its bit pattern. -/
def Datum.asFloatBits : Datum → Nat
  | .dFloat bits => bits
  | _ => 0

/-- Reading `*(struct timeval*)data`. -/
def Datum.asTimeval : Datum → prrte_timeval
  | .dTimeval tv => tv
  | _ => ⟨0, 0⟩

/-- Reading `data` itself as a pointer for the PTR kind. -/
def Datum.asPtr : Datum → Nat
  | .dPtr addr => addr
  | _ => 0

/-- The deep copy of a byte object performed by
`malloc(boptr->size); memcpy(..., boptr->size)` guarded by
`NULL != boptr->bytes && 0 < boptr->size` — the else branch stores
NULL/0. -/
def boCopy (bo : prrte_byte_object) : prrte_byte_object :=
  match bo.bo_bytes with
  | some l => if 0 < bo.bo_size then ⟨some (l.take bo.bo_size), bo.bo_size⟩
              else ⟨none, 0⟩
  | none => ⟨none, 0⟩

/-- Shallow embedding of `prrte_value_load` (dss_load_unload.c:173-276).
The tag is stamped first; NULL data with any tag other than STRING /
BYTE_OBJECT zeroes the union and succeeds; otherwise the switch installs the
datum per kind (deep copy for STRING and BYTE_OBJECT, aliasing for PTR,
plain assignment for the scalar kinds); a tag without a case — VPID or any
unnamed tag — logs and returns NotSupported, the stamped tag remaining. -/
def prrte_value_load (kv : prrte_value) (data : Option Datum)
    (t : prrte_data_type) : PrrteRC × prrte_value :=
  if data = none ∧ t ≠ .STRING ∧ t ≠ .BYTE_OBJECT then
    (.SUCCESS, { kv with vtype := t, data := zeroData })
  else
    match t with
    | .BOOL =>
      (.SUCCESS, { kv with
        vtype := t
        data := { kv.data with flag := (data.map Datum.asBool).getD false } })
    | .BYTE =>
      (.SUCCESS, { kv with
        vtype := t
        data := { kv.data with byte := (data.map Datum.asByte).getD 0 } })
    | .STRING =>
      (.SUCCESS, { kv with
        vtype := t
        data := { kv.data with string := data.map Datum.asCString } })
    | .SIZE =>
      (.SUCCESS, { kv with
        vtype := t
        data := { kv.data with size := (data.map Datum.asSize).getD 0 } })
    | .PID =>
      (.SUCCESS, { kv with
        vtype := t
        data := { kv.data with pid := (data.map Datum.asPid).getD 0 } })
    | .INT =>
      (.SUCCESS, { kv with
        vtype := t
        data := { kv.data with integer := (data.map Datum.asInt).getD 0 } })
    | .INT8 =>
      (.SUCCESS, { kv with
        vtype := t
        data := { kv.data with int8 := (data.map Datum.asInt8).getD 0 } })
    | .INT16 =>
      (.SUCCESS, { kv with
        vtype := t
        data := { kv.data with int16 := (data.map Datum.asInt16).getD 0 } })
    | .INT32 =>
      (.SUCCESS, { kv with
        vtype := t
        data := { kv.data with int32 := (data.map Datum.asInt32).getD 0 } })
    | .INT64 =>
      (.SUCCESS, { kv with
        vtype := t
        data := { kv.data with int64 := (data.map Datum.asInt64).getD 0 } })
    | .UINT =>
      (.SUCCESS, { kv with
        vtype := t
        data := { kv.data with uint := (data.map Datum.asUInt).getD 0 } })
    | .UINT8 =>
      (.SUCCESS, { kv with
        vtype := t
        data := { kv.data with uint8 := (data.map Datum.asUInt8).getD 0 } })
    | .UINT16 =>
      (.SUCCESS, { kv with
        vtype := t
        data := { kv.data with uint16 := (data.map Datum.asUInt16).getD 0 } })
    | .UINT32 =>
      (.SUCCESS, { kv with
        vtype := t
        data := { kv.data with uint32 := (data.map Datum.asUInt32).getD 0 } })
    | .UINT64 =>
      (.SUCCESS, { kv with
        vtype := t
        data := { kv.data with uint64 := (data.map Datum.asUInt64).getD 0 } })
    | .BYTE_OBJECT =>
      (.SUCCESS, { kv with
        vtype := t
        data := { kv.data with
                  bo := match data with
                        | some dd => boCopy dd.asBO
                        | none => ⟨none, 0⟩ } })
    | .FLOAT =>
      (.SUCCESS, { kv with
        vtype := t
        data := { kv.data with fval := (data.map Datum.asFloatBits).getD 0 } })
    | .TIMEVAL =>
      (.SUCCESS, { kv with
        vtype := t
        data := { kv.data with tv := (data.map Datum.asTimeval).getD ⟨0, 0⟩ } })
    | .PTR =>
      (.SUCCESS, { kv with
        vtype := t
        data := { kv.data with ptr := (data.map Datum.asPtr).getD 0 } })
    | _ => (.ERR_NOT_SUPPORTED, { kv with vtype := t })

/-- Shallow embedding of `prrte_value_unload` (dss_load_unload.c:278-379).
`data` models the `void **data` argument: `none` is a NULL `data`,
`some none` a non-NULL `data` whose `*data` is NULL.  The result's second
component is the slot after the call: on success `some (some y)` (or
`some none` when a NULL string pointer is stored), untouched otherwise.
Checks: a tag differing from the stored one yields TypeMismatch; a NULL
`data`, or NULL `*data` for any kind but STRING / BYTE_OBJECT, yields
BadParam.  STRING and BYTE_OBJECT store a fresh deep copy, PTR stores the
aliased pointer, the scalar kinds memcpy their exact width. -/
def prrte_value_unload (kv : prrte_value) (data : Option (Option Datum))
    (t : prrte_data_type) : PrrteRC × Option (Option Datum) :=
  if t ≠ kv.vtype then (.ERR_TYPE_MISMATCH, data)
  else if data = none ∨ (t ≠ .STRING ∧ t ≠ .BYTE_OBJECT ∧ data = some none) then
    (.ERR_BAD_PARAM, data)
  else
    match t with
    | .BOOL => (.SUCCESS, some (some (.dBool kv.data.flag)))
    | .BYTE => (.SUCCESS, some (some (.dByte kv.data.byte)))
    | .STRING => (.SUCCESS, some (kv.data.string.map Datum.dString))
    | .SIZE => (.SUCCESS, some (some (.dSize kv.data.size)))
    | .PID => (.SUCCESS, some (some (.dPid kv.data.pid)))
    | .INT => (.SUCCESS, some (some (.dInt kv.data.integer)))
    | .INT8 => (.SUCCESS, some (some (.dInt8 kv.data.int8)))
    | .INT16 => (.SUCCESS, some (some (.dInt16 kv.data.int16)))
    | .INT32 => (.SUCCESS, some (some (.dInt32 kv.data.int32)))
    | .INT64 => (.SUCCESS, some (some (.dInt64 kv.data.int64)))
    | .UINT => (.SUCCESS, some (some (.dUInt kv.data.uint)))
    | .UINT8 => (.SUCCESS, some (some (.dUInt8 kv.data.uint8)))
    | .UINT16 => (.SUCCESS, some (some (.dUInt16 kv.data.uint16)))
    | .UINT32 => (.SUCCESS, some (some (.dUInt32 kv.data.uint32)))
    | .UINT64 => (.SUCCESS, some (some (.dUInt64 kv.data.uint64)))
    | .BYTE_OBJECT => (.SUCCESS, some (some (.dByteObject (boCopy kv.data.bo))))
    | .FLOAT => (.SUCCESS, some (some (.dFloat kv.data.fval)))
    | .TIMEVAL => (.SUCCESS, some (some (.dTimeval kv.data.tv)))
    | .PTR => (.SUCCESS, some (some (.dPtr kv.data.ptr)))
    | .VPID => (.SUCCESS, some (some (.dVpid kv.data.vpid)))
    | .OTHER _ => (.ERR_NOT_SUPPORTED, data)

/-- Shallow embedding of `prrte_value_xfer` (dss_load_unload.c:381-480).
The key is strdup'd into dest whenever src's key is non-NULL, and dest's
tag is overwritten with src's, both before the switch validates the tag;
the switch then copies the payload per kind (deep copy for STRING and
BYTE_OBJECT after freeing dest's prior owned payload, aliasing for PTR,
assignment for scalars).  A tag without a case — VPID or an unnamed tag —
returns NotSupported with dest's payload untouched. -/
def prrte_value_xfer (dest src : prrte_value) : PrrteRC × prrte_value :=
  match (match src.key with
         | some k => { dest with key := some k }
         | none => dest : prrte_value) with
  | d0 =>
    match ({ d0 with vtype := src.vtype } : prrte_value) with
    | d1 =>
      match src.vtype with
      | .BOOL =>
        (.SUCCESS, { d1 with data := { d1.data with flag := src.data.flag } })
      | .BYTE =>
        (.SUCCESS, { d1 with data := { d1.data with byte := src.data.byte } })
      | .STRING =>
        (.SUCCESS, { d1 with data := { d1.data with string := src.data.string } })
      | .SIZE =>
        (.SUCCESS, { d1 with data := { d1.data with size := src.data.size } })
      | .PID =>
        (.SUCCESS, { d1 with data := { d1.data with pid := src.data.pid } })
      | .INT =>
        (.SUCCESS, { d1 with data := { d1.data with integer := src.data.integer } })
      | .INT8 =>
        (.SUCCESS, { d1 with data := { d1.data with int8 := src.data.int8 } })
      | .INT16 =>
        (.SUCCESS, { d1 with data := { d1.data with int16 := src.data.int16 } })
      | .INT32 =>
        (.SUCCESS, { d1 with data := { d1.data with int32 := src.data.int32 } })
      | .INT64 =>
        (.SUCCESS, { d1 with data := { d1.data with int64 := src.data.int64 } })
      | .UINT =>
        (.SUCCESS, { d1 with data := { d1.data with uint := src.data.uint } })
      | .UINT8 =>
        (.SUCCESS, { d1 with data := { d1.data with uint8 := src.data.uint8 } })
      | .UINT16 =>
        (.SUCCESS, { d1 with data := { d1.data with uint16 := src.data.uint16 } })
      | .UINT32 =>
        (.SUCCESS, { d1 with data := { d1.data with uint32 := src.data.uint32 } })
      | .UINT64 =>
        (.SUCCESS, { d1 with data := { d1.data with uint64 := src.data.uint64 } })
      | .BYTE_OBJECT =>
        (.SUCCESS, { d1 with data := { d1.data with bo := boCopy src.data.bo } })
      | .FLOAT =>
        (.SUCCESS, { d1 with data := { d1.data with fval := src.data.fval } })
      | .TIMEVAL =>
        (.SUCCESS, { d1 with data := { d1.data with tv := src.data.tv } })
      | .PTR =>
        (.SUCCESS, { d1 with data := { d1.data with ptr := src.data.ptr } })
      | _ => (.ERR_NOT_SUPPORTED, d1)

/-- The tags handled by the switches of `prrte_value_load` and
`prrte_value_xfer` (every named kind except VPID, which only
`prrte_value_unload` handles; unnamed tags fall to the default case). -/
def supportedTag : prrte_data_type → Bool
  | .VPID => false
  | .OTHER _ => false
  | _ => true

/-- Whether a datum is of the variant the given kind reads — i.e. the
caller passed a pointer to an object of the type the kind names.  For PTR
the address must be nonzero (a NULL pointer argument is `none` at the
`Option Datum` level, not `some (dPtr 0)`). -/
def datumMatches : prrte_data_type → Datum → Bool
  | .BOOL, .dBool _ => true
  | .BYTE, .dByte _ => true
  | .STRING, .dString _ => true
  | .SIZE, .dSize _ => true
  | .PID, .dPid _ => true
  | .INT, .dInt _ => true
  | .INT8, .dInt8 _ => true
  | .INT16, .dInt16 _ => true
  | .INT32, .dInt32 _ => true
  | .INT64, .dInt64 _ => true
  | .UINT, .dUInt _ => true
  | .UINT8, .dUInt8 _ => true
  | .UINT16, .dUInt16 _ => true
  | .UINT32, .dUInt32 _ => true
  | .UINT64, .dUInt64 _ => true
  | .BYTE_OBJECT, .dByteObject _ => true
  | .FLOAT, .dFloat _ => true
  | .TIMEVAL, .dTimeval _ => true
  | .PTR, .dPtr addr => addr ≠ 0
  | .VPID, .dVpid _ => true
  | _, _ => false

/-- The byte content a byte object denotes: its first `bo_size` stored
bytes (empty for a NULL bytes pointer). -/
def prrte_byte_object.content (bo : prrte_byte_object) : List Nat :=
  match bo.bo_bytes with
  | none => []
  | some l => l.take bo.bo_size

/-- Normalization inducing deep equality of datums: a byte object is
replaced by its denoted content; every other variant — strings included,
since they are already modelled as their character lists — compares
structurally. -/
def Datum.norm : Datum → Datum
  | .dByteObject bo => .dByteObject ⟨some bo.content, bo.content.length⟩
  | d => d

/-- C9 counterexample: `prrte_value_load` with a NULL data pointer and an
unsupported tag returns SUCCESS (the early NULL-data branch zeroes the
union and returns before the switch validates the tag), not NotSupported. -/
theorem c9_counterexample :
    (prrte_value_load ⟨none, .BOOL, zeroData⟩ none (.OTHER 999)).1
      = .SUCCESS ∧
    (PrrteRC.SUCCESS ≠ PrrteRC.ERR_NOT_SUPPORTED) := by
  decide

/-- C9 (amended): with a non-NULL data argument, `prrte_value_load` on a
tag outside the supported set returns NotSupported (stamping the tag but
leaving the payload untouched); with NULL data it instead returns success,
zeroing the payload. -/
theorem c9_unsupported_tag (kv : prrte_value) (data : Option Datum)
    (t : prrte_data_type) (h : supportedTag t = false) :
    prrte_value_load kv data t =
      if data = none then (.SUCCESS, { kv with vtype := t, data := zeroData })
      else (.ERR_NOT_SUPPORTED, { kv with vtype := t }) := by
  cases data <;> cases t <;> simp_all [prrte_value_load, supportedTag]

/-- C9 witness: the amended theorem applied at the unnamed tag 999 with
non-NULL data, and at VPID with NULL data. -/
theorem c9_unsupported_tag_witness :
    prrte_value_load ⟨none, .BOOL, zeroData⟩ (some (.dInt 5)) (.OTHER 999) =
      (if (some (Datum.dInt 5) : Option Datum) = none then
        (.SUCCESS, { key := none, vtype := .OTHER 999, data := zeroData })
      else (.ERR_NOT_SUPPORTED,
            { key := none, vtype := .OTHER 999, data := zeroData })) ∧
    prrte_value_load ⟨none, .BOOL, zeroData⟩ none .VPID =
      (if (none : Option Datum) = none then
        (.SUCCESS, { key := none, vtype := .VPID, data := zeroData })
      else (.ERR_NOT_SUPPORTED,
            { key := none, vtype := .VPID, data := zeroData })) :=
  ⟨c9_unsupported_tag ⟨none, .BOOL, zeroData⟩ (some (.dInt 5)) (.OTHER 999)
     (by decide),
   c9_unsupported_tag ⟨none, .BOOL, zeroData⟩ none .VPID (by decide)⟩

/-- C10: when src carries a tag outside `prrte_value_xfer`'s supported set,
the call returns NotSupported, yet dest's tag has already been overwritten
with the unsupported tag and dest's key has been set from src's (when src
has one), while dest's payload union is untouched. -/
theorem c10_xfer_partial_mutation (dest src : prrte_value)
    (h : supportedTag src.vtype = false) :
    prrte_value_xfer dest src =
      (.ERR_NOT_SUPPORTED,
       { key := match src.key with
                | some k => some k
                | none => dest.key
         vtype := src.vtype
         data := dest.data }) := by
  obtain ⟨sk, st, sd⟩ := src
  simp only at h
  cases st <;> first
    | (cases sk <;> rfl)
    | simp [supportedTag] at h

/-- C10 witness: the theorem applied at a dest holding an INT8 payload and
a keyed src tagged VPID. -/
theorem c10_xfer_partial_mutation_witness :
    prrte_value_xfer ⟨none, .INT8, { zeroData with int8 := 7 }⟩
        ⟨some [107], .VPID, zeroData⟩ =
      (.ERR_NOT_SUPPORTED,
       { key := match (some [107] : Option (List Nat)) with
                | some k => some k
                | none => none
         vtype := .VPID
         data := { zeroData with int8 := 7 } }) :=
  c10_xfer_partial_mutation ⟨none, .INT8, { zeroData with int8 := 7 }⟩
    ⟨some [107], .VPID, zeroData⟩ (by decide)

/-- Deep-copying a byte object preserves its denoted content. -/
theorem boCopy_content (bo : prrte_byte_object) :
    (boCopy bo).content = bo.content := by
  obtain ⟨bs, n⟩ := bo
  cases bs with
  | none => rfl
  | some l =>
    by_cases hn : 0 < n
    · simp [boCopy, prrte_byte_object.content, hn, List.take_take]
    · simp [boCopy, prrte_byte_object.content, hn, Nat.le_zero.mp (Nat.not_lt.mp hn)]

/-- Normalization is invariant under byte-object deep copy. -/
theorem norm_boCopy (bo : prrte_byte_object) :
    Datum.norm (.dByteObject (boCopy bo)) = Datum.norm (.dByteObject bo) := by
  simp [Datum.norm, boCopy_content]

set_option maxHeartbeats 1000000 in
/-- C8: for every kind in the supported set of `prrte_value_load` and every
datum of that kind, loading it and then unloading at the same kind succeeds
and yields a datum deep-equal to the original (structurally equal for the
scalar kinds and strings, alias-equal for PTR, content-equal for byte
objects — the `Datum.norm` quotient). -/
theorem c8_roundtrip (kv : prrte_value) (slot : Datum) (t : prrte_data_type)
    (x : Datum) (hsupp : supportedTag t = true)
    (hm : datumMatches t x = true) :
    (prrte_value_load kv (some x) t).1 = .SUCCESS ∧
    ∃ y, prrte_value_unload (prrte_value_load kv (some x) t).2
           (some (some slot)) t = (.SUCCESS, some (some y)) ∧
         y.norm = x.norm := by
  cases t <;> cases x <;>
    first
    | exact ⟨rfl, _, rfl, rfl⟩
    | exact ⟨rfl, _, rfl, (norm_boCopy _).trans (norm_boCopy _)⟩
    | exact Bool.noConfusion hsupp
    | exact Bool.noConfusion hm

/-- C8 witness: the theorem applied at the BYTE_OBJECT kind with a
two-byte object. -/
theorem c8_roundtrip_witness :
    (prrte_value_load ⟨none, .BOOL, zeroData⟩
        (some (.dByteObject ⟨some [3, 4], 2⟩)) .BYTE_OBJECT).1 = .SUCCESS ∧
    ∃ y, prrte_value_unload
           (prrte_value_load ⟨none, .BOOL, zeroData⟩
              (some (.dByteObject ⟨some [3, 4], 2⟩)) .BYTE_OBJECT).2
           (some (some (.dInt 0))) .BYTE_OBJECT = (.SUCCESS, some (some y)) ∧
         y.norm = (Datum.dByteObject ⟨some [3, 4], 2⟩).norm :=
  c8_roundtrip ⟨none, .BOOL, zeroData⟩ (.dInt 0) .BYTE_OBJECT
    (.dByteObject ⟨some [3, 4], 2⟩) (by decide) (by decide)

/-- The job-lifecycle states that plm_tm_module.c mentions, plus `OTHER n`
for the rest of the enum. -/
inductive JobState where
  | INIT | MAP | LAUNCH_DAEMONS | DAEMONS_LAUNCHED | DAEMONS_REPORTED
  | FAILED_TO_START
  | OTHER (n : Nat)
deriving DecidableEq

/-- Which job object a `PRTE_ACTIVATE_JOB_STATE` targets in the handler:
the caddy's job (`jdata`) or the daemon job object. -/
inductive WhichJob where
  | jdata
  | daemons
deriving DecidableEq

/-- A `prte_node_t` as the launch loop reads it: node name (an abstract
identifier), the daemon-already-launched flag, and the backend launch-target
id attribute (`PRTE_NODE_LAUNCH_ID`, `none` when the attribute is absent —
the resolution-failure case). -/
structure LaunchNode where
  name : Nat
  daemonLaunched : Bool
  launchId : Option Int
deriving DecidableEq

/-- A `prte_job_map_t`: the node pointer array (slots may be NULL) and the
new-daemon count. -/
structure JobMap where
  nodes : List (Option LaunchNode)
  num_new_daemons : Nat
deriving DecidableEq

/-- The caddy's job as the handler reads it: the debugger-daemon flag and
the current state field. -/
structure TmJob where
  debuggerDaemon : Bool
  state : JobState
deriving DecidableEq

/-- The daemon job object, as observed after the VM-setup collaborator has
run (every read of it in the handler happens after that call): the
do-not-launch attribute, the map pointer, and the state field. -/
structure DaemonsJob where
  doNotLaunch : Bool
  map : Option JobMap
  state : JobState
deriving DecidableEq

/-- Outcomes of the external collaborators the handler calls, supplied as
oracles: the VM-setup return code, the two malloc results, the
`plm_tm_connect` result, and per-node-index results of the vpid-to-string
conversion and of `tm_spawn`. -/
structure LaunchEnv where
  setupVmOk : Bool
  tmEventsOk : Bool
  tmTaskIdsOk : Bool
  connectOk : Bool
  vpidOk : Nat → Bool
  spawnOk : Nat → Bool

/-- How the per-node spawn loop ended: all nodes processed, aborted with a
`tm-spawn-failed` diagnostic (node name, launch id shown), or the process
exited via `exit(-1)` on a vpid-conversion failure. -/
inductive SpawnPhase where
  | completed
  | failed (diag : Nat × Int)
  | exited
deriving DecidableEq

/-- State at the end of the spawn loop: the `tm_spawn` invocations made (in
order, as (node name, launch id)), the `launched` counter, and the phase. -/
structure SpawnLoopRes where
  spawns : List (Nat × Int)
  launched : Nat
  phase : SpawnPhase
deriving DecidableEq

/-- The per-node loop of `launch_daemons` (plm_tm_module.c:361-409): NULL
slots and nodes whose daemon already runs are skipped; a vpid-conversion
failure exits the process; a missing launch-id attribute aborts with a
diagnostic naming the node and showing id 0, before any `tm_spawn` call for
that node; otherwise `tm_spawn` is invoked and, on failure, the loop aborts
with a diagnostic naming the node and its launch id; on success `launched`
advances. -/
def spawnLoop (vok sok : Nat → Bool) :
    List (Option LaunchNode) → Nat → List (Nat × Int) → Nat → SpawnLoopRes
  | [], _, acc, l => ⟨acc, l, .completed⟩
  | none :: rest, i, acc, l => spawnLoop vok sok rest (i + 1) acc l
  | some node :: rest, i, acc, l =>
    if node.daemonLaunched then spawnLoop vok sok rest (i + 1) acc l
    else if ¬ vok i then ⟨acc, l, .exited⟩
    else
      match node.launchId with
      | none => ⟨acc, l, .failed (node.name, 0)⟩
      | some lid =>
        if sok i then
          spawnLoop vok sok rest (i + 1) (acc ++ [(node.name, lid)]) (l + 1)
        else ⟨acc ++ [(node.name, lid)], l, .failed (node.name, lid)⟩

/-- Everything observable about one run of the `launch_daemons` handler:
the `tm_spawn` invocations, the `tm-spawn-failed` diagnostics, the state
activations issued, the two jobs' state fields afterward, the `launched`
and `connected` globals afterward, and whether the process exited.  The
handler is `void`: no status is returned to any caller, which is why the
outcome has no return-code component. -/
structure LaunchOutcome where
  spawns : List (Nat × Int)
  diags : List (Nat × Int)
  activations : List (WhichJob × JobState)
  jdataState : JobState
  daemonsState : JobState
  launched : Nat
  connected : Bool
  exited : Bool
deriving DecidableEq

/-- Shallow embedding of `launch_daemons` (plm_tm_module.c:170-430).
Branches in source order: the debugger-daemon short-circuit; the VM-setup
call (its failure, like every later failure, lands at the `cleanup` label,
which activates FAILED_TO_START on the daemon job); the do-not-launch
short-circuit; the NULL-map check; the zero-new-daemon short-circuit; the
two mallocs; the connect-once step; then the per-node spawn loop.  The
environment-construction block (lines 289-355) is straight-line code with
no failure exit and no observable the claims mention, so it adds nothing to
the outcome.  On full success both jobs' states become DAEMONS_LAUNCHED and
no activation is issued (the overridden DAEMONS_LAUNCHED callback is
triggered by the state machine, outside this handler). -/
def launch_daemons (jdata : TmJob) (daemons : DaemonsJob) (connected0 : Bool)
    (launched0 : Nat) (env : LaunchEnv) : LaunchOutcome :=
  if jdata.debuggerDaemon then
    ⟨[], [], [(.jdata, .DAEMONS_REPORTED)], .DAEMONS_LAUNCHED, daemons.state,
     launched0, connected0, false⟩
  else if ¬ env.setupVmOk then
    ⟨[], [], [(.daemons, .FAILED_TO_START)], jdata.state, daemons.state,
     launched0, connected0, false⟩
  else if daemons.doNotLaunch then
    ⟨[], [], [(.jdata, .DAEMONS_REPORTED)], .DAEMONS_LAUNCHED, daemons.state,
     launched0, connected0, false⟩
  else
    match daemons.map with
    | none =>
      ⟨[], [], [(.daemons, .FAILED_TO_START)], jdata.state, daemons.state,
       launched0, connected0, false⟩
    | some m =>
      if m.num_new_daemons = 0 then
        ⟨[], [], [(.jdata, .DAEMONS_REPORTED)], .DAEMONS_LAUNCHED,
         daemons.state, launched0, connected0, false⟩
      else if ¬ env.tmEventsOk then
        ⟨[], [], [(.daemons, .FAILED_TO_START)], jdata.state, daemons.state,
         launched0, connected0, false⟩
      else if ¬ env.tmTaskIdsOk then
        ⟨[], [], [(.daemons, .FAILED_TO_START)], jdata.state, daemons.state,
         launched0, connected0, false⟩
      else if ¬ connected0 ∧ ¬ env.connectOk then
        ⟨[], [], [(.daemons, .FAILED_TO_START)], jdata.state, daemons.state,
         launched0, false, false⟩
      else
        match spawnLoop env.vpidOk env.spawnOk m.nodes 0 [] launched0 with
        | ⟨sp, l, .completed⟩ =>
          ⟨sp, [], [], .DAEMONS_LAUNCHED, .DAEMONS_LAUNCHED, l, true, false⟩
        | ⟨sp, l, .failed dg⟩ =>
          ⟨sp, [dg], [(.daemons, .FAILED_TO_START)], jdata.state,
           daemons.state, l, true, false⟩
        | ⟨sp, l, .exited⟩ =>
          ⟨sp, [], [], jdata.state, daemons.state, l, true, true⟩

/-- C3 counterexample: a job with the do-not-launch attribute set does not
reach DAEMONS_LAUNCHED when the VM-setup collaborator fails — the handler
escalates to FAILED_TO_START instead (the do-not-launch check sits after
the VM-setup call), refuting the claim's unconditional reading. -/
theorem c3_counterexample :
    (launch_daemons ⟨false, .LAUNCH_DAEMONS⟩ ⟨true, none, .LAUNCH_DAEMONS⟩
        false 0 ⟨false, true, true, true, fun _ => true, fun _ => true⟩).spawns
      = [] ∧
    (launch_daemons ⟨false, .LAUNCH_DAEMONS⟩ ⟨true, none, .LAUNCH_DAEMONS⟩
        false 0 ⟨false, true, true, true, fun _ => true, fun _ => true⟩).jdataState
      ≠ .DAEMONS_LAUNCHED ∧
    (launch_daemons ⟨false, .LAUNCH_DAEMONS⟩ ⟨true, none, .LAUNCH_DAEMONS⟩
        false 0 ⟨false, true, true, true, fun _ => true, fun _ => true⟩).activations
      = [(.daemons, .FAILED_TO_START)] := by
  refine ⟨rfl, ?_, rfl⟩
  intro h
  exact JobState.noConfusion h

/-- C3 (amended): a debugger-attachment job unconditionally — and, provided
the VM-setup step succeeds, a job with the do-not-launch attribute or (with
the map present) a zero new-daemon count — short-circuits the handler: the
spawn primitive is invoked zero times, the job's state is set to
DAEMONS_LAUNCHED, and DAEMONS_REPORTED is activated for it. -/
theorem c3_short_circuit (jdata : TmJob) (daemons : DaemonsJob)
    (connected0 : Bool) (launched0 : Nat) (env : LaunchEnv)
    (h : jdata.debuggerDaemon = true ∨
         (env.setupVmOk = true ∧ jdata.debuggerDaemon = false ∧
          daemons.doNotLaunch = true) ∨
         (env.setupVmOk = true ∧ jdata.debuggerDaemon = false ∧
          daemons.doNotLaunch = false ∧
          ∃ m, daemons.map = some m ∧ m.num_new_daemons = 0)) :
    launch_daemons jdata daemons connected0 launched0 env =
      ⟨[], [], [(.jdata, .DAEMONS_REPORTED)], .DAEMONS_LAUNCHED,
       daemons.state, launched0, connected0, false⟩ := by
  rcases h with h | ⟨hvm, hdbg, hdnl⟩ | ⟨hvm, hdbg, hdnl, m, hmap, hcnt⟩
  · simp [launch_daemons, h]
  · simp [launch_daemons, hvm, hdbg, hdnl]
  · simp [launch_daemons, hvm, hdbg, hdnl, hmap, hcnt]

/-- C3 witness: the amended theorem applied at a do-not-launch job with a
successful VM setup. -/
theorem c3_short_circuit_witness :
    launch_daemons ⟨false, .LAUNCH_DAEMONS⟩ ⟨true, none, .INIT⟩ true 2
        ⟨true, true, true, true, fun _ => true, fun _ => true⟩ =
      ⟨[], [], [(.jdata, .DAEMONS_REPORTED)], .DAEMONS_LAUNCHED, .INIT,
       2, true, false⟩ :=
  c3_short_circuit ⟨false, .LAUNCH_DAEMONS⟩ ⟨true, none, .INIT⟩ true 2
    ⟨true, true, true, true, fun _ => true, fun _ => true⟩
    (Or.inr (Or.inl ⟨rfl, rfl, rfl⟩))

/-- The `TM_SUCCESS` constant of the external Torque `tm.h` header; only
comparison against it matters. -/
def TM_SUCCESS : Int := 0

/-- The poll loop of `poll_spawns` (plm_tm_module.c:443-453): for each of
the `remaining` recorded handles, call `tm_poll`; a non-TM_SUCCESS return
or a non-TM_SUCCESS per-spawn `local_err` aborts at once.  Returns the
number of `tm_poll` calls made and whether all confirmed.  `rc i` and
`lerr i` are the oracle outcomes of the i-th call. -/
def pollLoop (rc lerr : Nat → Int) (i : Nat) : Nat → Nat × Bool
  | 0 => (0, true)
  | remaining + 1 =>
    if rc i ≠ TM_SUCCESS then (1, false)
    else if lerr i ≠ TM_SUCCESS then (1, false)
    else
      match pollLoop rc lerr (i + 1) remaining with
      | (c, ok) => (c + 1, ok)

/-- Observables of one `poll_spawns` run: how many `tm_poll` calls were
made and which activations were issued.  The handler writes no job-state
field of its own; its only state effect is the conditional FAILED_TO_START
activation on the caddy's job. -/
structure PollOutcome where
  polls : Nat
  activations : List JobState
deriving DecidableEq

/-- Shallow embedding of `poll_spawns` (plm_tm_module.c:432-464): poll once
per handle recorded by the launch step (the `launched` global); on full
confirmation `failed_launch` is cleared and nothing else happens; otherwise
the caddy's job is escalated to FAILED_TO_START. -/
def poll_spawns (launched : Nat) (rc lerr : Nat → Int) : PollOutcome :=
  match pollLoop rc lerr 0 launched with
  | (c, true) => ⟨c, []⟩
  | (c, false) => ⟨c, [.FAILED_TO_START]⟩

/-- All-confirm case of the poll loop: exactly one call per handle. -/
theorem pollLoop_all_ok (rc lerr : Nat → Int) (m i : Nat)
    (h : ∀ j, j < m → rc (i + j) = TM_SUCCESS ∧ lerr (i + j) = TM_SUCCESS) :
    pollLoop rc lerr i m = (m, true) := by
  induction m generalizing i with
  | zero => rfl
  | succ m ih =>
    have h0 := h 0 (by omega)
    rw [Nat.add_zero] at h0
    have ht : ∀ j, j < m →
        rc (i + 1 + j) = TM_SUCCESS ∧ lerr (i + 1 + j) = TM_SUCCESS := by
      intro j hj
      have := h (j + 1) (by omega)
      have e : i + (j + 1) = i + 1 + j := by omega
      rwa [e] at this
    simp only [pollLoop, h0.1, h0.2, ih (i + 1) ht]
    simp

/-- First-failure case of the poll loop: the failing call is made, the rest
are skipped. -/
theorem pollLoop_first_fail (rc lerr : Nat → Int) (k m i : Nat) (hk : k < m)
    (hpre : ∀ j, j < k → rc (i + j) = TM_SUCCESS ∧ lerr (i + j) = TM_SUCCESS)
    (hf : rc (i + k) ≠ TM_SUCCESS ∨ lerr (i + k) ≠ TM_SUCCESS) :
    pollLoop rc lerr i m = (k + 1, false) := by
  induction k generalizing i m with
  | zero =>
    obtain ⟨m1, rfl⟩ : ∃ m1, m = m1 + 1 := ⟨m - 1, by omega⟩
    rw [Nat.add_zero] at hf
    rcases hf with hf | hf
    · simp only [pollLoop, if_pos hf]
    · by_cases hrc : rc i ≠ TM_SUCCESS
      · simp only [pollLoop, if_pos hrc]
      · simp only [pollLoop, if_neg hrc, if_pos hf]
  | succ k ih =>
    obtain ⟨m1, rfl⟩ : ∃ m1, m = m1 + 1 := ⟨m - 1, by omega⟩
    have h0 := hpre 0 (by omega)
    rw [Nat.add_zero] at h0
    have hrec : pollLoop rc lerr (i + 1) m1 = (k + 1, false) := by
      refine ih m1 (i + 1) (by omega) ?_ ?_
      · intro j hj
        have := hpre (j + 1) (by omega)
        have e : i + (j + 1) = i + 1 + j := by omega
        rwa [e] at this
      · have e : i + (k + 1) = i + 1 + k := by omega
        rwa [e] at hf
    simp only [pollLoop, h0.1, h0.2, hrec]
    simp

/-- C4: the poll step calls the backend poll once per handle recorded
during launch — N handles, N calls — when every poll confirms, and then
issues no job-state change of its own; if the k-th poll call errs or
reports a backend spawn error, exactly k+1 calls are made (the remaining
polls are skipped) and the job is escalated to FAILED_TO_START. -/
theorem c4_poll_spawns (N : Nat) (rc lerr : Nat → Int) :
    ((∀ i, i < N → rc i = TM_SUCCESS ∧ lerr i = TM_SUCCESS) →
       poll_spawns N rc lerr = ⟨N, []⟩) ∧
    (∀ k, k < N → (∀ i, i < k → rc i = TM_SUCCESS ∧ lerr i = TM_SUCCESS) →
       (rc k ≠ TM_SUCCESS ∨ lerr k ≠ TM_SUCCESS) →
       poll_spawns N rc lerr = ⟨k + 1, [.FAILED_TO_START]⟩) := by
  constructor
  · intro h
    have := pollLoop_all_ok rc lerr N 0 (by simpa using h)
    simp [poll_spawns, this]
  · intro k hk hpre hf
    have := pollLoop_first_fail rc lerr k N 0 hk (by simpa using hpre)
      (by simpa using hf)
    simp [poll_spawns, this]

/-- C4 witness: the theorem applied with three handles all confirming, and
with the second of three handles reporting a spawn error. -/
theorem c4_poll_spawns_witness :
    poll_spawns 3 (fun _ => 0) (fun _ => 0) = ⟨3, []⟩ ∧
    poll_spawns 3 (fun _ => 0) (fun i => if i = 1 then 7 else 0)
      = ⟨2, [.FAILED_TO_START]⟩ :=
  ⟨(c4_poll_spawns 3 (fun _ => 0) (fun _ => 0)).1
     (fun i _ => ⟨rfl, rfl⟩),
   (c4_poll_spawns 3 (fun _ => 0) (fun i => if i = 1 then 7 else 0)).2
     1 (by omega) (fun i hi => ⟨rfl, by interval_cases i <;> decide⟩)
     (Or.inr (by decide))⟩

/-- The `tm_spawn` invocations the loop issues for a node-list segment in
which every eligible node (non-NULL slot, daemon not yet launched) has a
launch id and spawns successfully. -/
def eligSpawns : List (Option LaunchNode) → List (Nat × Int)
  | [] => []
  | none :: rest => eligSpawns rest
  | some node :: rest =>
    if node.daemonLaunched then eligSpawns rest
    else
      match node.launchId with
      | some lid => (node.name, lid) :: eligSpawns rest
      | none => eligSpawns rest

/-- Running the spawn loop over a prefix whose eligible nodes all resolve
their launch id and spawn successfully just accumulates those spawns and
advances the counter, then continues with the remaining nodes. -/
theorem spawnLoop_ok_prefix (vok sok : Nat → Bool)
    (pre : List (Option LaunchNode)) (rest : List (Option LaunchNode))
    (i : Nat) (acc : List (Nat × Int)) (l : Nat)
    (hpre : ∀ j n, pre[j]? = some (some n) → n.daemonLaunched = false →
        vok (i + j) = true ∧ (∃ lid, n.launchId = some lid) ∧
        sok (i + j) = true) :
    spawnLoop vok sok (pre ++ rest) i acc l
      = spawnLoop vok sok rest (i + pre.length) (acc ++ eligSpawns pre)
          (l + (eligSpawns pre).length) := by
  induction pre generalizing i acc l with
  | nil => simp [eligSpawns]
  | cons hd tl ih =>
    have hshift : ∀ j n, tl[j]? = some (some n) → n.daemonLaunched = false →
        vok (i + 1 + j) = true ∧ (∃ lid, n.launchId = some lid) ∧
        sok (i + 1 + j) = true := by
      intro j n hj hdm
      have e : i + (j + 1) = i + 1 + j := by omega
      have := hpre (j + 1) n (by simpa using hj) hdm
      rwa [e] at this
    have harith : i + (tl.length + 1) = i + 1 + tl.length := by omega
    cases hd with
    | none =>
      have step : spawnLoop vok sok ((none :: tl) ++ rest) i acc l
          = spawnLoop vok sok (tl ++ rest) (i + 1) acc l := by
        simp [spawnLoop]
      rw [step, ih (i + 1) acc l hshift]
      simp [eligSpawns, harith]
    | some node =>
      by_cases hdm : node.daemonLaunched = true
      · have step : spawnLoop vok sok ((some node :: tl) ++ rest) i acc l
            = spawnLoop vok sok (tl ++ rest) (i + 1) acc l := by
          simp [spawnLoop, hdm]
        rw [step, ih (i + 1) acc l hshift]
        simp [eligSpawns, hdm, harith]
      · have hdm2 : node.daemonLaunched = false := by simpa using hdm
        obtain ⟨hv, ⟨lid, hlid⟩, hs⟩ := hpre 0 node (by simp) hdm2
        rw [Nat.add_zero] at hv hs
        have step : spawnLoop vok sok ((some node :: tl) ++ rest) i acc l
            = spawnLoop vok sok (tl ++ rest) (i + 1)
                (acc ++ [(node.name, lid)]) (l + 1) := by
          simp [spawnLoop, hdm2, hv, hlid, hs]
        rw [step, ih (i + 1) (acc ++ [(node.name, lid)]) (l + 1) hshift]
        simp [eligSpawns, hdm2, hlid, harith]
        have e2 : l + 1 + (eligSpawns tl).length
            = l + ((eligSpawns tl).length + 1) := by omega
        rw [e2]

/-- C2: once the per-node loop is reached, if the first failing step is at
a node (launch-id resolution failing, or `tm_spawn` failing), the handler
issues the spawns for the eligible nodes before it — plus the failing
`tm_spawn` attempt itself when the id did resolve — and none for the
remaining nodes; nothing is rolled back (every earlier spawn stays
recorded); no status is returned to any caller (the handler is void — the
outcome carries no return code, only effects); the sole escalation is
activating FAILED_TO_START on the daemon job; neither job's state field is
advanced; and the single diagnostic names the failing node together with
its launch id (0 standing in when the id could not be resolved). -/
theorem c2_spawn_failure (jdata : TmJob) (daemons : DaemonsJob) (m : JobMap)
    (env : LaunchEnv) (connected0 : Bool) (launched0 : Nat)
    (pre rest : List (Option LaunchNode)) (fnode : LaunchNode)
    (hdbg : jdata.debuggerDaemon = false)
    (hvm : env.setupVmOk = true)
    (hdnl : daemons.doNotLaunch = false)
    (hmap : daemons.map = some m)
    (hnum : m.num_new_daemons ≠ 0)
    (hev : env.tmEventsOk = true)
    (hti : env.tmTaskIdsOk = true)
    (hconn : connected0 = true ∨ env.connectOk = true)
    (hnodes : m.nodes = pre ++ some fnode :: rest)
    (hpre : ∀ j n, pre[j]? = some (some n) → n.daemonLaunched = false →
        env.vpidOk j = true ∧ (∃ lid, n.launchId = some lid) ∧
        env.spawnOk j = true)
    (hfl : fnode.daemonLaunched = false)
    (hfv : env.vpidOk pre.length = true)
    (hfail : fnode.launchId = none ∨ env.spawnOk pre.length = false) :
    launch_daemons jdata daemons connected0 launched0 env =
      ⟨eligSpawns pre ++ (match fnode.launchId with
                          | none => []
                          | some lid => [(fnode.name, lid)]),
       [(fnode.name, fnode.launchId.getD 0)],
       [(.daemons, .FAILED_TO_START)],
       jdata.state, daemons.state,
       launched0 + (eligSpawns pre).length, true, false⟩ := by
  have hloop : spawnLoop env.vpidOk env.spawnOk m.nodes 0 [] launched0
      = ⟨eligSpawns pre ++ (match fnode.launchId with
                            | none => []
                            | some lid => [(fnode.name, lid)]),
         launched0 + (eligSpawns pre).length,
         .failed (fnode.name, fnode.launchId.getD 0)⟩ := by
    rw [hnodes,
        spawnLoop_ok_prefix env.vpidOk env.spawnOk pre (some fnode :: rest)
          0 [] launched0 (by simpa using hpre)]
    rw [Nat.zero_add]
    cases hid : fnode.launchId with
    | none => simp [spawnLoop, hfl, hfv, hid]
    | some lid =>
      have hso : env.spawnOk pre.length = false := by
        rcases hfail with h | h
        · rw [hid] at h
          exact Option.noConfusion h
        · exact h
      simp [spawnLoop, hfl, hfv, hid, hso]
  have hcg : ¬ (¬ connected0 = true ∧ ¬ env.connectOk = true) := by
    rcases hconn with h | h <;> simp [h]
  simp only [launch_daemons, hdbg, hvm, hdnl, hmap, hev, hti,
             Bool.false_eq_true, if_false, not_true, if_neg hnum,
             if_neg hcg, hloop]

/-- C2 witness: the theorem applied at a two-node map — node 11 eligible
and spawning successfully, node 22 eligible with launch id 7 whose
`tm_spawn` fails. -/
theorem c2_spawn_failure_witness :
    launch_daemons ⟨false, .LAUNCH_DAEMONS⟩
        ⟨false, some ⟨[some ⟨11, false, some 4⟩, some ⟨22, false, some 7⟩], 2⟩,
         .LAUNCH_DAEMONS⟩
        true 0
        ⟨true, true, true, true, fun _ => true, fun i => i = 0⟩ =
      ⟨eligSpawns [some ⟨11, false, some 4⟩] ++
         (match (some 7 : Option Int) with
          | none => []
          | some lid => [((22 : Nat), lid)]),
       [(22, (some (7 : Int)).getD 0)],
       [(.daemons, .FAILED_TO_START)],
       .LAUNCH_DAEMONS, .LAUNCH_DAEMONS,
       0 + (eligSpawns [some ⟨11, false, some 4⟩]).length, true, false⟩ :=
  c2_spawn_failure ⟨false, .LAUNCH_DAEMONS⟩
    ⟨false, some ⟨[some ⟨11, false, some 4⟩, some ⟨22, false, some 7⟩], 2⟩,
     .LAUNCH_DAEMONS⟩
    ⟨[some ⟨11, false, some 4⟩, some ⟨22, false, some 7⟩], 2⟩
    ⟨true, true, true, true, fun _ => true, fun i => i = 0⟩
    true 0 [some ⟨11, false, some 4⟩] [] ⟨22, false, some 7⟩
    rfl rfl rfl rfl (by decide) rfl rfl (Or.inl rfl) rfl
    (by
      intro j n hj hd
      match j, hj with
      | 0, hj =>
        simp at hj
        subst hj
        exact ⟨rfl, ⟨4, rfl⟩, rfl⟩)
    rfl rfl (Or.inr rfl)
